import Mathlib

/-!
Verification development for the transaction-group engine of
`src/db/database.py` (Sistema Muquirano).

Modelling conventions:
* Monetary amounts are carried in integer minor units (cents).  The source
  itself converts to cents via `round(total_amount * 100)` before any
  arithmetic; a Python float amount `x` is represented here by the integer
  `round(x * 100)`, so `100.00` is `10000`.
* `sqlite3` rows of the `transactions` table are modelled as a
  `List Transaction`; the autoincrement row ids handed out by
  `cursor.lastrowid` are modelled by an explicit first-row-id parameter, and
  the `uuid.uuid4()` group identifier by an explicit opaque string parameter.
* Python exceptions that escape or are caught are modelled with `Option`:
  `none` stands for an uncaught exception, and branches of the source that
  catch an exception and return `[]` are modelled by returning `some []`.
-/

namespace Muquirano

/-- A calendar date as in Python's `datetime.date`: year, month (1-12),
day (1-31). -/
structure Date where
  year : Nat
  month : Nat
  day : Nat
deriving DecidableEq

/-- Gregorian leap-year test, as in Python's `calendar.isleap`. -/
def isLeapYear (y : Nat) : Bool :=
  y % 4 == 0 && (y % 100 != 0 || y % 400 == 0)

/-- Number of days of month `m` of year `y` (`calendar.monthrange(y, m)[1]`). -/
def daysInMonth (y m : Nat) : Nat :=
  if m = 2 then (if isLeapYear y then 29 else 28)
  else if m = 4 ∨ m = 6 ∨ m = 9 ∨ m = 11 then 30
  else 31

/-- A structurally valid `datetime.date` value: month in range, day in range
for that month, year at least `datetime.MINYEAR = 1`. -/
def isValidDate (d : Date) : Bool :=
  decide (1 ≤ d.year ∧ 1 ≤ d.month ∧ d.month ≤ 12 ∧ 1 ≤ d.day ∧ d.day ≤ daysInMonth d.year d.month)

/-- Embedding of `d + relativedelta(months=k)`: advance by `k` calendar months and clamp
the day to the length of the target month (`relativedelta` sets
`day = min(calendar.monthrange(year, month)[1], day)`; it never raises). -/
def addMonths (d : Date) (k : Nat) : Date :=
  let t := d.year * 12 + (d.month - 1) + k
  let y := t / 12
  let m := t % 12 + 1
  { year := y, month := m, day := min d.day (daysInMonth y m) }

/-- Successor day of a calendar date (carrying over month and year ends). -/
def nextDay (d : Date) : Date :=
  if d.day < daysInMonth d.year d.month then { d with day := d.day + 1 }
  else if d.month < 12 then { year := d.year, month := d.month + 1, day := 1 }
  else { year := d.year + 1, month := 1, day := 1 }

/-- Embedding of `d + timedelta(days=n)` on valid dates, by iterating `nextDay`. -/
def addDays (d : Date) : Nat → Date
  | 0 => d
  | n + 1 => addDays (nextDay d) n

/-- Embedding of `d + relativedelta(years=k)`: advance the year and clamp Feb 29 to
Feb 28 in non-leap target years (`relativedelta` clamps, it never raises). -/
def addYears (d : Date) (k : Nat) : Date :=
  let y := d.year + k
  { year := y, month := d.month, day := min d.day (daysInMonth y d.month) }

/-- Zero-padded two-digit rendering, as `strftime` uses for `%m` and `%d`. -/
def pad2 (n : Nat) : String :=
  if n < 10 then "0" ++ toString n else toString n

/-- Zero-padded four-digit rendering, as `strftime` uses for `%Y`. -/
def pad4 (n : Nat) : String :=
  if n < 10 then "000" ++ toString n
  else if n < 100 then "00" ++ toString n
  else if n < 1000 then "0" ++ toString n
  else toString n

/-- Embedding of `d.strftime("%Y-%m-%d")`. -/
def formatDate (d : Date) : String :=
  pad4 d.year ++ "-" ++ pad2 d.month ++ "-" ++ pad2 d.day

/-- Value of an ASCII digit character, `none` otherwise. -/
def digitVal (c : Char) : Option Nat :=
  if '0' ≤ c ∧ c ≤ '9' then some (c.toNat - '0'.toNat) else none

/-- Embedding of `datetime.strptime(s, "%Y-%m-%d").date()` restricted to the canonical
zero-padded `YYYY-MM-DD` form (every date string this development feeds it is
canonical; `strptime` additionally tolerates unpadded fields).  `none` models
the `ValueError` that `strptime` raises on malformed input or an out-of-range
month or day. -/
def parseDate (s : String) : Option Date :=
  match s.data with
  | [y3, y2, y1, y0, h1, m1, m0, h2, d1, d0] =>
    if h1 = '-' ∧ h2 = '-' then
      match digitVal y3, digitVal y2, digitVal y1, digitVal y0,
            digitVal m1, digitVal m0, digitVal d1, digitVal d0 with
      | some a, some b, some c, some d, some e, some f, some g, some h =>
        let year := ((a * 10 + b) * 10 + c) * 10 + d
        let month := e * 10 + f
        let day := g * 10 + h
        if 1 ≤ year ∧ 1 ≤ month ∧ month ≤ 12 ∧ 1 ≤ day ∧ day ≤ daysInMonth year month then
          some { year := year, month := month, day := day }
        else none
      | _, _, _, _, _, _, _, _ => none
    else none
  | _ => none

/-- The `TransactionType` enum of `src/db/data_models.py`. -/
inductive TransactionType where
  | INCOME
  | EXPENSE
deriving DecidableEq

/-- The `TransactionType.value` string stored in the database `type` column. -/
def TransactionType.value : TransactionType → String
  | .INCOME => "receita"
  | .EXPENSE => "despesa"

/-- The `Transaction` dataclass of `src/db/data_models.py` (one row of the
`transactions` table).  `amountCents` carries the float `amount` in integer
minor units. -/
structure Transaction where
  id : Nat
  user_id : Nat
  type : TransactionType
  amountCents : Int
  date : String
  description : String
  installment_group_id : Option String := none
  installment_number : Option Nat := none
  total_installments : Option Nat := none
  is_recurring : Bool := false
  recurring_group_id : Option String := none
  recurrence_frequency : Option String := none
  occurrence_number : Option Nat := none
  total_occurrences_in_group : Option Nat := none
deriving DecidableEq

/-- The `FREQUENCY_MAPPING` dict of `database.py`: UI frequency names to the
database cadence strings; `none` models absence from the dict. -/
def FREQUENCY_MAPPING (s : String) : Option String :=
  if s = "mensal" then some "monthly"
  else if s = "semanal" then some "weekly"
  else if s = "anual" then some "yearly"
  else none

/-- Embedding of `_calculate_installment_amounts(total_amount, num_installments)` with the
total already in minor units (`total_cents = round(total_amount * 100)`).
`Int.fdiv`/`Int.fmod` are Python's floor-division `//` and `%`.  The function
performs no validation: `none` models the `ZeroDivisionError` raised by
`total_cents // 0` when `num_installments = 0`; for a negative count,
`range(num_installments)` is empty and the empty list is returned. -/
def _calculate_installment_amounts (total_cents : Int) (num_installments : Int) :
    Option (List Int) :=
  if num_installments = 0 then none
  else
    let base_cents := total_cents.fdiv num_installments
    let remainder_cents := total_cents.fmod num_installments
    some ((List.range num_installments.toNat).map (fun (i : Nat) =>
      if (i : Int) < remainder_cents then base_cents + 1 else base_cents))

/-- Embedding of `_calculate_next_occurrence_date(start_date, frequency, occurrence_index)`.
`none` models the `ValueError` raised for an unrecognized frequency.  The
`try/except ValueError` fallbacks of the source are dead code:
`dateutil.relativedelta` clamps the day-of-month (resp. Feb 29) itself and
never raises for these operations, so the three recognized branches are
exactly `addMonths` / `addDays (7*i)` / `addYears`. -/
def _calculate_next_occurrence_date (start_date : Date) (frequency : String)
    (occurrence_index : Nat) : Option Date :=
  if frequency = "monthly" then some (addMonths start_date occurrence_index)
  else if frequency = "weekly" then some (addDays start_date (7 * occurrence_index))
  else if frequency = "yearly" then some (addYears start_date occurrence_index)
  else none

/-- All-or-nothing collection of a list of optional values: the Python loops
of `add_transaction` abort the whole batch on the first failed element. -/
def collectSome {α : Type} : List (Option α) → Option (List α)
  | [] => some []
  | none :: _ => none
  | some a :: rest => (collectSome rest).map (fun l => a :: l)

/-- Embedding of `add_transaction` of `database.py`, as a pure function from inputs to the
list of created `Transaction` rows.  `fresh_group_id` stands for the
`str(uuid.uuid4())` generated by the call, `first_row_id` for the first
`cursor.lastrowid` (successive inserts get successive ids).  The outer `none`
models the uncaught `ValueError` of `datetime.strptime` on an unparsable
`date_str`; `some []` models the paths where the source prints an error and
returns `[]` (unrecognized recurrence frequency, or a caught `ValueError`
from date computation).  Store-level insert failures are not modelled: the
store always accepts the rows. -/
def add_transaction (user_id : Nat) (type : TransactionType) (total_amount_cents : Int)
    (date_str : String) (description : String)
    (num_installments : Int) (is_recurring_input : Bool)
    (recurrence_frequency_input : Option String)
    (num_occurrences_to_generate_input : Int)
    (fresh_group_id : String) (first_row_id : Nat) : Option (List Transaction) :=
  match parseDate date_str with
  | none => none
  | some base_start_date =>
    if is_recurring_input ∧ 0 < num_occurrences_to_generate_input then
      match recurrence_frequency_input.bind FREQUENCY_MAPPING with
      | none => some []
      | some db_frequency =>
        let n := num_occurrences_to_generate_input.toNat
        match collectSome ((List.range n).map (fun i =>
            _calculate_next_occurrence_date base_start_date db_frequency i)) with
        | none => some []
        | some occurrence_dates =>
          some (List.zipWith (fun i d =>
            ({ id := first_row_id + i
               user_id := user_id
               type := type
               amountCents := total_amount_cents
               date := formatDate d
               description := description ++ " (Recorrente " ++ toString (i + 1) ++ "/" ++ toString n ++ ")"
               is_recurring := true
               recurring_group_id := some fresh_group_id
               recurrence_frequency := some db_frequency
               occurrence_number := some (i + 1)
               total_occurrences_in_group := some n } : Transaction))
            (List.range n) occurrence_dates)
    else if 1 < num_installments ∧ ¬ is_recurring_input then
      match _calculate_installment_amounts total_amount_cents num_installments with
      | none => none
      | some installment_amounts =>
        let n := num_installments.toNat
        match collectSome ((List.range n).map (fun i =>
            _calculate_next_occurrence_date base_start_date "monthly" i)) with
        | none => some []
        | some installment_dates =>
          some (List.zipWith (fun i d =>
            ({ id := first_row_id + i
               user_id := user_id
               type := type
               amountCents := installment_amounts.getD i 0
               date := formatDate d
               description := description ++ " (" ++ toString (i + 1) ++ "/" ++ toString n ++ ")"
               installment_group_id := some fresh_group_id
               installment_number := some (i + 1)
               total_installments := some n } : Transaction))
            (List.range n) installment_dates)
    else
      some [{ id := first_row_id
              user_id := user_id
              type := type
              amountCents := total_amount_cents
              date := date_str
              description := description }]

/-- Drop leading whitespace characters from a character list. -/
def dropLeadingWs : List Char → List Char
  | [] => []
  | c :: cs => if c.isWhitespace then dropLeadingWs cs else c :: cs

/-- Python's `str.strip()`: remove leading and trailing whitespace.  (Python
strips all Unicode whitespace; the labels this development handles only ever
carry ASCII whitespace, which `Char.isWhitespace` covers.) -/
def pyStrip (s : String) : String :=
  { data := (dropLeadingWs ((dropLeadingWs s.data).reverse)).reverse }

/-- Byte-order text comparison `s1 <= s2` as SQLite's memcmp performs it for
the `date >= ?` condition; on canonically formatted `YYYY-MM-DD` strings this
coincides with calendar order. -/
def sqlTextLeAux : List Char → List Char → Bool
  | [], _ => true
  | _ :: _, [] => false
  | a :: as, b :: bs =>
    if a.toNat < b.toNat then true
    else if b.toNat < a.toNat then false
    else sqlTextLeAux as bs

/-- Byte-order text comparison on strings (see `sqlTextLeAux`). -/
def sqlTextLe (s1 s2 : String) : Bool :=
  sqlTextLeAux s1.data s2.data

/-- Whether row `t` belongs to the group selected by `group_field_name`
(`"installment_group_id"` or `"recurring_group_id"`) and `group_id`; a row
whose group column is NULL (`none`) never matches, as in SQL. -/
def groupMember (group_id group_field_name : String) (t : Transaction) : Bool :=
  if group_field_name = "installment_group_id" then t.installment_group_id == some group_id
  else t.recurring_group_id == some group_id

/-- The position column read by `update_group_base_description`
(`installment_number` or `occurrence_number`). -/
def groupNum (group_field_name : String) (t : Transaction) : Option Nat :=
  if group_field_name = "installment_group_id" then t.installment_number
  else t.occurrence_number

/-- The count column read by `update_group_base_description`
(`total_installments` or `total_occurrences_in_group`). -/
def groupTotal (group_field_name : String) (t : Transaction) : Option Nat :=
  if group_field_name = "installment_group_id" then t.total_installments
  else t.total_occurrences_in_group

/-- Embedding of `update_group_base_description(group_id, group_field_name,
new_base_description)` over a table `db`.  Returns the updated table together
with the `(success, updated_count)` pair of the source.  Each member row's
description is rebuilt as `f"{new_base_description.strip()} ({num}/{total})"`
from that row's own position/count columns; rows whose position or count is
NULL get just the stripped base.  `updated_count` sums `cursor.rowcount` of
the per-row `UPDATE ... WHERE id = ?` statements, which is the number of
member rows since `id` is the primary key. -/
def update_group_base_description (db : List Transaction) (group_id : String)
    (group_field_name : String) (new_base_description : String) :
    List Transaction × Bool × Nat :=
  if group_field_name ≠ "installment_group_id" ∧ group_field_name ≠ "recurring_group_id" then
    (db, false, 0)
  else
    ((db.map fun t =>
        if groupMember group_id group_field_name t then
          { t with description :=
              match groupNum group_field_name t, groupTotal group_field_name t with
              | some num, some total =>
                pyStrip new_base_description ++ " (" ++ toString num ++ "/" ++ toString total ++ ")"
              | _, _ => pyStrip new_base_description }
        else t),
     true,
     db.countP (groupMember group_id group_field_name))

/-- The SQL match condition of `update_recurring_group_future_amounts`:
`recurring_group_id = ? AND date >= ?`.  The date comparison is SQLite text
comparison, i.e. lexicographic order on the stored `YYYY-MM-DD` strings
(which coincides with calendar order on canonically formatted dates). -/
def recurringFutureHit (recurring_group_id from_date_str : String) (t : Transaction) : Bool :=
  t.recurring_group_id == some recurring_group_id && sqlTextLe from_date_str t.date

/-- Embedding of `update_recurring_group_future_amounts(recurring_group_id, from_date_str,
new_amount)` over a table `db`: one SQL UPDATE setting `amount` on every
matching row.  Returns the updated table and the `(success, rowcount)` pair;
SQLite's `rowcount` for an UPDATE is the number of matched rows. -/
def update_recurring_group_future_amounts (db : List Transaction)
    (recurring_group_id : String) (from_date_str : String) (new_amount : Int) :
    List Transaction × Bool × Nat :=
  ((db.map fun t =>
      if recurringFutureHit recurring_group_id from_date_str t then
        { t with amountCents := new_amount }
      else t),
   true,
   db.countP (recurringFutureHit recurring_group_id from_date_str))

/-- Number of rows produced by an `add_transaction` result. -/
def resultLength (r : Option (List Transaction)) : Option Nat :=
  r.map List.length

/-- The `i`-th row produced by an `add_transaction` result. -/
def resultGet (r : Option (List Transaction)) (i : Nat) : Option Transaction :=
  r.bind (fun l => l[i]?)

theorem collectSome_map_eq_some {α β : Type} (f : α → Option β) (g : α → β)
    (l : List α) (h : ∀ a ∈ l, f a = some (g a)) :
    collectSome (l.map f) = some (l.map g) := by
  induction l with
  | nil => rfl
  | cons a l ih =>
    rw [List.map_cons, h a (by simp), collectSome,
      ih (fun b hb => h b (List.mem_cons_of_mem a hb))]
    rfl

theorem zipWith_self_map {α β γ : Type} (mk : α → β → γ) (g : α → β) (l : List α) :
    List.zipWith mk l (l.map g) = l.map (fun a => mk a (g a)) := by
  induction l with
  | nil => rfl
  | cons a l ih => simp [ih]

theorem one_le_daysInMonth (y m : Nat) : 1 ≤ daysInMonth y m := by
  unfold daysInMonth
  split_ifs <;> omega

theorem sum_split (base r : Int) (h0 : 0 ≤ r) : ∀ n : Nat,
    ((List.range n).map (fun (i : Nat) => if (i : Int) < r then base + 1 else base)).sum
      = n * base + min r n
  | 0 => by simp; omega
  | n + 1 => by
    rw [List.range_succ, List.map_append, List.sum_append, sum_split base r h0 n]
    simp only [List.map_cons, List.map_nil, List.sum_cons, List.sum_nil]
    push_cast
    rw [add_one_mul]
    generalize (n : Int) * base = B
    split_ifs with h <;> omega

/-- C1: for `total > 0` and `parts ≥ 1`, `_calculate_installment_amounts`
returns exactly `parts` amounts whose sum in minor units is the requested
total; the `i`-th amount is the floor share plus one extra cent exactly when
`i < total mod parts`, so any two returned amounts differ by at most one
minor unit. -/
theorem splitInstallments_exact (t p : Int) (l : List Int) (i : Nat) (a b : Int)
    (ht : 0 < t) (hp : 1 ≤ p)
    (hl : _calculate_installment_amounts t p = some l)
    (hi : i < p.toNat) (ha : a ∈ l) (hb : b ∈ l) :
    l.length = p.toNat ∧ l.sum = t ∧
    l[i]? = some (if (i : Int) < t.fmod p then t.fdiv p + 1 else t.fdiv p) ∧
    a - b ≤ 1 := by
  have hp0 : p ≠ 0 := by omega
  rw [_calculate_installment_amounts, if_neg hp0, Option.some_inj] at hl
  subst hl
  have hfd : t.fdiv p = t / p := Int.fdiv_eq_ediv t (by omega)
  have hfm : t.fmod p = t % p := Int.fmod_eq_emod t (by omega)
  have hr0 : 0 ≤ t.fmod p := by rw [hfm]; exact Int.emod_nonneg t hp0
  have hrp : t.fmod p < p := by rw [hfm]; exact Int.emod_lt_of_pos t (by omega)
  have hptn : ((p.toNat : Nat) : Int) = p := Int.toNat_of_nonneg (by omega)
  refine ⟨by simp, ?_, ?_, ?_⟩
  · rw [sum_split _ _ hr0 p.toNat, hptn, min_eq_left (le_of_lt hrp), hfd, hfm]
    exact Int.ediv_add_emod t p
  · simp [List.getElem?_range hi]
  · obtain ⟨j, hj, rfl⟩ := List.mem_map.1 ha
    obtain ⟨k, hk, rfl⟩ := List.mem_map.1 hb
    split_ifs <;> omega

/-- Witness for C1 at `total = 100.00` (10000 cents) split into 3 parts:
the returned amounts are `[33.34, 33.33, 33.33]`. -/
theorem splitInstallments_exact_witness :
    ([3334, 3333, 3333] : List Int).length = (3 : Int).toNat ∧
    ([3334, 3333, 3333] : List Int).sum = 10000 ∧
    ([3334, 3333, 3333] : List Int)[0]? =
      some (if ((0 : Nat) : Int) < (10000 : Int).fmod 3 then (10000 : Int).fdiv 3 + 1
            else (10000 : Int).fdiv 3) ∧
    (3334 : Int) - 3333 ≤ 1 :=
  splitInstallments_exact 10000 3 [3334, 3333, 3333] 0 3334 3333
    (by norm_num) (by norm_num) (by decide) (by decide) (by decide) (by decide)

/-- C8 counterexample: the claim says every `total ≤ 0` is rejected with
`InvalidAmount`, but `_calculate_installment_amounts` performs no validation:
at `total = -50.00` with 2 parts it succeeds and returns two parts of
`-25.00`. -/
theorem split_no_validation_cex :
    _calculate_installment_amounts (-5000) 2 = some [-2500, -2500] := by
  decide

/-- C8 (amended): the amount split performs no input validation.  For
`parts ≥ 1` it never fails for any total (a non-positive total yields
non-positive parts rather than `InvalidAmount`); `parts = 0` fails with a
`ZeroDivisionError` rather than `InvalidPartCount`; a negative `parts`
returns an empty list without error. -/
theorem split_no_validation (t p : Int) :
    (1 ≤ p → (_calculate_installment_amounts t p).isSome = true) ∧
    (p = 0 → _calculate_installment_amounts t p = none) ∧
    (p < 0 → _calculate_installment_amounts t p = some []) := by
  refine ⟨fun hp => ?_, fun h => ?_, fun hp => ?_⟩
  · rw [_calculate_installment_amounts, if_neg (by omega : p ≠ 0)]
    rfl
  · simp [_calculate_installment_amounts, h]
  · have hz : p.toNat = 0 := by omega
    rw [_calculate_installment_amounts, if_neg (by omega : p ≠ 0), hz]
    rfl

/-- Witness for C8 (amended) at concrete inputs. -/
theorem split_no_validation_witness :
    (_calculate_installment_amounts (-7) 3).isSome = true ∧
    _calculate_installment_amounts 500 0 = none ∧
    _calculate_installment_amounts 500 (-2) = some [] :=
  ⟨(split_no_validation (-7) 3).1 (by norm_num),
   (split_no_validation 500 0).2.1 rfl,
   (split_no_validation 500 (-2)).2.2 (by norm_num)⟩

/-- C3: the monthly case of `_calculate_next_occurrence_date` advances a
valid start date by exactly `index` calendar months — the linear month count
grows by `index`, the month stays in `1..12`, and the day is the start day
clamped to the length of the target month — and index 0 returns the start
date itself. -/
theorem monthly_occurrence_advances (start : Date) (idx : Nat)
    (hv : isValidDate start = true) :
    _calculate_next_occurrence_date start "monthly" idx = some (addMonths start idx) ∧
    (addMonths start idx).year * 12 + ((addMonths start idx).month - 1)
      = start.year * 12 + (start.month - 1) + idx ∧
    1 ≤ (addMonths start idx).month ∧ (addMonths start idx).month ≤ 12 ∧
    (addMonths start idx).day
      = min start.day (daysInMonth (addMonths start idx).year (addMonths start idx).month) ∧
    isValidDate (addMonths start idx) = true ∧
    (idx = 0 → addMonths start idx = start) := by
  obtain ⟨y, m, d⟩ := start
  simp only [isValidDate, decide_eq_true_eq] at hv
  obtain ⟨hy, hm1, hm2, hd1, hd2⟩ := hv
  refine ⟨rfl, ?_, ?_, ?_, rfl, ?_, ?_⟩
  · simp only [addMonths]
    omega
  · simp only [addMonths]
    omega
  · simp only [addMonths]
    omega
  · simp only [isValidDate, addMonths, decide_eq_true_eq]
    refine ⟨by omega, by omega, by omega, ?_, min_le_right _ _⟩
    have := one_le_daysInMonth ((y * 12 + (m - 1) + idx) / 12) ((y * 12 + (m - 1) + idx) % 12 + 1)
    omega
  · intro h
    subst h
    simp only [addMonths]
    have h1 : (y * 12 + (m - 1) + 0) / 12 = y := by omega
    have h2 : (y * 12 + (m - 1) + 0) % 12 + 1 = m := by omega
    rw [h1, h2, min_eq_left hd2]

/-- Witness for C3: `2024-01-31` advanced one month is `2024-02-29` (leap
year) and `2023-01-31` advanced one month is `2023-02-28`; index 0 returns
the start date. -/
theorem monthly_occurrence_advances_witness :
    (_calculate_next_occurrence_date ⟨2024, 1, 31⟩ "monthly" 1
        = some (addMonths ⟨2024, 1, 31⟩ 1) ∧
      (addMonths ⟨2024, 1, 31⟩ 1).year * 12 + ((addMonths ⟨2024, 1, 31⟩ 1).month - 1)
        = 2024 * 12 + (1 - 1) + 1 ∧
      1 ≤ (addMonths ⟨2024, 1, 31⟩ 1).month ∧ (addMonths ⟨2024, 1, 31⟩ 1).month ≤ 12 ∧
      (addMonths ⟨2024, 1, 31⟩ 1).day
        = min 31 (daysInMonth (addMonths ⟨2024, 1, 31⟩ 1).year (addMonths ⟨2024, 1, 31⟩ 1).month) ∧
      isValidDate (addMonths ⟨2024, 1, 31⟩ 1) = true ∧
      (1 = 0 → addMonths ⟨2024, 1, 31⟩ 1 = ⟨2024, 1, 31⟩)) ∧
    addMonths ⟨2024, 1, 31⟩ 1 = ⟨2024, 2, 29⟩ ∧
    addMonths ⟨2023, 1, 31⟩ 1 = ⟨2023, 2, 28⟩ ∧
    addMonths ⟨2024, 1, 31⟩ 0 = ⟨2024, 1, 31⟩ :=
  ⟨monthly_occurrence_advances ⟨2024, 1, 31⟩ 1 (by decide), by decide, by decide, by decide⟩

/-- The total date function that `_calculate_next_occurrence_date` computes
on its three recognized frequencies. -/
def recognizedOccurrenceDate (start : Date) (frequency : String) (i : Nat) : Date :=
  if frequency = "monthly" then addMonths start i
  else if frequency = "weekly" then addDays start (7 * i)
  else addYears start i

theorem freq_recognized {fIn dbF : String} (h : FREQUENCY_MAPPING fIn = some dbF) :
    dbF = "monthly" ∨ dbF = "weekly" ∨ dbF = "yearly" := by
  rw [FREQUENCY_MAPPING] at h
  split_ifs at h <;> simp_all

theorem calc_next_recognized (s : Date) (i : Nat) {f : String}
    (h : f = "monthly" ∨ f = "weekly" ∨ f = "yearly") :
    _calculate_next_occurrence_date s f i = some (recognizedOccurrenceDate s f i) := by
  rcases h with h | h | h <;> subst h <;> rfl

theorem getD_map_range {α : Type} (f : Nat → α) (d : α) {i n : Nat} (h : i < n) :
    ((List.range n).map f).getD i d = f i := by
  simp [List.getD_eq_getElem?_getD, List.getElem?_range h]

theorem recurring_shape (u : Nat) (ty : TransactionType) (a : Int) (ds : String)
    (start : Date) (desc : String) (k : Int) (fIn : String) (dbF : String)
    (nOcc : Int) (g : String) (r : Nat)
    (hparse : parseDate ds = some start)
    (hfreq : FREQUENCY_MAPPING fIn = some dbF)
    (hn : 0 < nOcc) :
    add_transaction u ty a ds desc k true (some fIn) nOcc g r =
      some ((List.range nOcc.toNat).map (fun (i : Nat) =>
        ({ id := r + i
           user_id := u
           type := ty
           amountCents := a
           date := formatDate (recognizedOccurrenceDate start dbF i)
           description := desc ++ " (Recorrente " ++ toString (i + 1) ++ "/" ++ toString nOcc.toNat ++ ")"
           is_recurring := true
           recurring_group_id := some g
           recurrence_frequency := some dbF
           occurrence_number := some (i + 1)
           total_occurrences_in_group := some nOcc.toNat } : Transaction))) := by
  have hc := collectSome_map_eq_some (fun i => _calculate_next_occurrence_date start dbF i)
    (recognizedOccurrenceDate start dbF) (List.range nOcc.toNat)
    (fun j _ => calc_next_recognized start j (freq_recognized hfreq))
  simp only [add_transaction, hparse]
  rw [if_pos ⟨trivial, hn⟩]
  simp only [Option.some_bind, hfreq, hc, zipWith_self_map]

theorem installment_shape (u : Nat) (ty : TransactionType) (a : Int) (ds : String)
    (start : Date) (desc : String) (k : Int) (fIn : Option String)
    (nOcc : Int) (g : String) (r : Nat)
    (hparse : parseDate ds = some start)
    (hk : 1 < k) :
    add_transaction u ty a ds desc k false fIn nOcc g r =
      some ((List.range k.toNat).map (fun (i : Nat) =>
        ({ id := r + i
           user_id := u
           type := ty
           amountCents := if (i : Int) < a.fmod k then a.fdiv k + 1 else a.fdiv k
           date := formatDate (addMonths start i)
           description := desc ++ " (" ++ toString (i + 1) ++ "/" ++ toString k.toNat ++ ")"
           installment_group_id := some g
           installment_number := some (i + 1)
           total_installments := some k.toNat } : Transaction))) := by
  have hc := collectSome_map_eq_some (fun i => _calculate_next_occurrence_date start "monthly" i)
    (fun i => addMonths start i) (List.range k.toNat) (fun j _ => rfl)
  simp only [add_transaction, hparse]
  rw [if_neg (by intro h; exact absurd h.1 (by simp)), if_pos ⟨hk, by simp⟩]
  rw [_calculate_installment_amounts, if_neg (by omega : k ≠ 0)]
  simp only [hc, zipWith_self_map]
  refine congrArg some (List.map_congr_left (fun i hi => ?_))
  have hin : i < k.toNat := List.mem_range.1 hi
  rw [getD_map_range _ _ hin]

theorem simple_shape (u : Nat) (ty : TransactionType) (a : Int) (ds : String)
    (start : Date) (desc : String) (k : Int) (isRec : Bool) (fIn : Option String)
    (nOcc : Int) (g : String) (r : Nat)
    (hparse : parseDate ds = some start)
    (hcond1 : ¬(isRec = true ∧ 0 < nOcc))
    (hcond2 : ¬(1 < k ∧ ¬isRec = true)) :
    add_transaction u ty a ds desc k isRec fIn nOcc g r =
      some [{ id := r
              user_id := u
              type := ty
              amountCents := a
              date := ds
              description := desc }] := by
  simp only [add_transaction, hparse]
  rw [if_neg hcond1, if_neg hcond2]

/-- C2: an installment-mode call (`num_installments = count > 1`, recurring
flag off) produces exactly `count` rows; the row at 0-based position `i`
carries the `i`-th amount of the cents-based split, the start date advanced
`i` months (day-clamped), the description `base ++ " (i+1/count)"`, the
positional installment fields, one shared fresh installment group id, and no
recurring fields. -/
theorem installment_creation (u : Nat) (ty : TransactionType) (a : Int) (ds : String)
    (start : Date) (desc : String) (k : Int) (fIn : Option String)
    (nOcc : Int) (g : String) (r : Nat) (i : Nat)
    (hparse : parseDate ds = some start)
    (hk : 1 < k) (hi : i < k.toNat) :
    resultLength (add_transaction u ty a ds desc k false fIn nOcc g r) = some k.toNat ∧
    resultGet (add_transaction u ty a ds desc k false fIn nOcc g r) i =
      some { id := r + i
             user_id := u
             type := ty
             amountCents := if (i : Int) < a.fmod k then a.fdiv k + 1 else a.fdiv k
             date := formatDate (addMonths start i)
             description := desc ++ " (" ++ toString (i + 1) ++ "/" ++ toString k.toNat ++ ")"
             installment_group_id := some g
             installment_number := some (i + 1)
             total_installments := some k.toNat
             is_recurring := false
             recurring_group_id := none
             recurrence_frequency := none
             occurrence_number := none
             total_occurrences_in_group := none } := by
  rw [resultLength, resultGet, installment_shape u ty a ds start desc k fIn nOcc g r hparse hk]
  refine ⟨by simp, ?_⟩
  simp [List.getElem?_range hi]

/-- Witness for C2: `total = 100.00` over 3 installments starting
`2024-01-15`; position 0 gets `33.34` (= base + 1 extra cent). -/
theorem installment_creation_witness :
    resultLength (add_transaction 1 .EXPENSE 10000 "2024-01-15" "Compra" 3 false none 0 "G" 7)
      = some (3 : Int).toNat ∧
    resultGet (add_transaction 1 .EXPENSE 10000 "2024-01-15" "Compra" 3 false none 0 "G" 7) 0 =
      some { id := 7 + 0
             user_id := 1
             type := .EXPENSE
             amountCents := if ((0 : Nat) : Int) < (10000 : Int).fmod 3 then (10000 : Int).fdiv 3 + 1
                            else (10000 : Int).fdiv 3
             date := formatDate (addMonths ⟨2024, 1, 15⟩ 0)
             description := "Compra" ++ " (" ++ toString (0 + 1) ++ "/" ++ toString (3 : Int).toNat ++ ")"
             installment_group_id := some "G"
             installment_number := some (0 + 1)
             total_installments := some (3 : Int).toNat
             is_recurring := false
             recurring_group_id := none
             recurrence_frequency := none
             occurrence_number := none
             total_occurrences_in_group := none } :=
  installment_creation 1 .EXPENSE 10000 "2024-01-15" ⟨2024, 1, 15⟩ "Compra" 3 none 0 "G" 7 0
    (by decide) (by norm_num) (by decide)

/-- C4: a recurring-mode call (`is_recurring` true, `n ≥ 1` occurrences,
recognized cadence) produces exactly `n` rows; the row at position `i`
carries the unsplit per-occurrence amount, the `i`-th cadence date from the
start, the description `base ++ " (Recorrente i+1/n)"`, the positional
occurrence fields, the mapped cadence, one shared fresh recurring group id,
and no installment fields. -/
theorem recurring_creation (u : Nat) (ty : TransactionType) (a : Int) (ds : String)
    (start : Date) (desc : String) (k : Int) (fIn : String) (dbF : String)
    (nOcc : Int) (g : String) (r : Nat) (i : Nat) (di : Date)
    (hparse : parseDate ds = some start)
    (hfreq : FREQUENCY_MAPPING fIn = some dbF)
    (hn : 0 < nOcc) (hi : i < nOcc.toNat)
    (hdate : _calculate_next_occurrence_date start dbF i = some di) :
    resultLength (add_transaction u ty a ds desc k true (some fIn) nOcc g r) = some nOcc.toNat ∧
    resultGet (add_transaction u ty a ds desc k true (some fIn) nOcc g r) i =
      some { id := r + i
             user_id := u
             type := ty
             amountCents := a
             date := formatDate di
             description := desc ++ " (Recorrente " ++ toString (i + 1) ++ "/" ++ toString nOcc.toNat ++ ")"
             installment_group_id := none
             installment_number := none
             total_installments := none
             is_recurring := true
             recurring_group_id := some g
             recurrence_frequency := some dbF
             occurrence_number := some (i + 1)
             total_occurrences_in_group := some nOcc.toNat } := by
  have hdi : di = recognizedOccurrenceDate start dbF i := by
    rw [calc_next_recognized start i (freq_recognized hfreq)] at hdate
    exact (Option.some_inj.1 hdate).symm
  subst hdi
  rw [resultLength, resultGet, recurring_shape u ty a ds start desc k fIn dbF nOcc g r hparse hfreq hn]
  refine ⟨by simp, ?_⟩
  simp [List.getElem?_range hi]

/-- Witness for C4: 4 weekly occurrences of `50.00` from `2024-01-01`; the
last one falls on `2024-01-22` and carries the full `50.00`. -/
theorem recurring_creation_witness :
    resultLength (add_transaction 1 .EXPENSE 5000 "2024-01-01" "X" 1 true (some "semanal") 4 "g" 10)
      = some (4 : Int).toNat ∧
    resultGet (add_transaction 1 .EXPENSE 5000 "2024-01-01" "X" 1 true (some "semanal") 4 "g" 10) 3 =
      some { id := 10 + 3
             user_id := 1
             type := .EXPENSE
             amountCents := 5000
             date := formatDate ⟨2024, 1, 22⟩
             description := "X" ++ " (Recorrente " ++ toString (3 + 1) ++ "/" ++ toString (4 : Int).toNat ++ ")"
             installment_group_id := none
             installment_number := none
             total_installments := none
             is_recurring := true
             recurring_group_id := some "g"
             recurrence_frequency := some "weekly"
             occurrence_number := some (3 + 1)
             total_occurrences_in_group := some (4 : Int).toNat } :=
  recurring_creation 1 .EXPENSE 5000 "2024-01-01" ⟨2024, 1, 1⟩ "X" 1 "semanal" "weekly" 4 "g" 10 3
    ⟨2024, 1, 22⟩ (by decide) (by decide) (by norm_num) (by decide) (by decide)

/-- C7 counterexample: a call requesting both installment mode
(`num_installments = 2`) and recurring mode (3 weekly occurrences) does not
fail — no `ConflictingMode` error exists in the code — and it does create
records: the recurring branch wins and emits 3 recurring rows. -/
theorem both_modes_cex :
    resultLength (add_transaction 1 .EXPENSE 5000 "2024-01-01" "X" 2 true (some "semanal") 3 "g" 10)
      = some 3 ∧
    resultGet (add_transaction 1 .EXPENSE 5000 "2024-01-01" "X" 2 true (some "semanal") 3 "g" 10) 0 =
      some { id := 10
             user_id := 1
             type := .EXPENSE
             amountCents := 5000
             date := "2024-01-01"
             description := "X (Recorrente 1/3)"
             is_recurring := true
             recurring_group_id := some "g"
             recurrence_frequency := some "weekly"
             occurrence_number := some 1
             total_occurrences_in_group := some 3 } := by
  constructor <;> decide

/-- C7 (amended): installment mode and recurring mode requested together are
not rejected: the recurring branch takes precedence and `num_installments` is
ignored — the call behaves exactly as the same call with
`num_installments = 1`. -/
theorem both_modes_recurring_wins (u : Nat) (ty : TransactionType) (a : Int) (ds : String)
    (desc : String) (k : Int) (fIn : Option String) (nOcc : Int) (g : String) (r : Nat)
    (hk : 1 < k) (hn : 0 < nOcc) :
    add_transaction u ty a ds desc k true fIn nOcc g r =
      add_transaction u ty a ds desc 1 true fIn nOcc g r := by
  cases hp : parseDate ds <;> simp [add_transaction, hp, hn]

/-- Witness for C7 (amended) at the counterexample's input. -/
theorem both_modes_recurring_wins_witness :
    add_transaction 1 .EXPENSE 5000 "2024-01-01" "X" 2 true (some "semanal") 3 "g" 10 =
      add_transaction 1 .EXPENSE 5000 "2024-01-01" "X" 1 true (some "semanal") 3 "g" 10 :=
  both_modes_recurring_wins 1 .EXPENSE 5000 "2024-01-01" "X" 2 (some "semanal") 3 "g" 10
    (by norm_num) (by norm_num)

/-- C10: a call with the recurring flag set but a non-positive occurrence
count (and no installment count) raises no error: it falls through to simple
mode and creates exactly one ungrouped record echoing the given amount, date
string and description, with `is_recurring = false` and no group or cadence
fields. -/
theorem recurring_flag_ignored (u : Nat) (ty : TransactionType) (a : Int) (ds : String)
    (start : Date) (desc : String) (k : Int) (fIn : Option String)
    (nOcc : Int) (g : String) (r : Nat)
    (hparse : parseDate ds = some start)
    (hn : nOcc ≤ 0) (hk : k ≤ 1) :
    add_transaction u ty a ds desc k true fIn nOcc g r =
      some [{ id := r
              user_id := u
              type := ty
              amountCents := a
              date := ds
              description := desc
              installment_group_id := none
              installment_number := none
              total_installments := none
              is_recurring := false
              recurring_group_id := none
              recurrence_frequency := none
              occurrence_number := none
              total_occurrences_in_group := none }] :=
  simple_shape u ty a ds start desc k true fIn nOcc g r hparse
    (fun h => absurd h.2 (by omega)) (fun h => absurd h.1 (by omega))

/-- Witness for C10: a recurring request with 0 occurrences silently creates
one plain record. -/
theorem recurring_flag_ignored_witness :
    add_transaction 1 .EXPENSE 5000 "2024-01-01" "X" 1 true (some "semanal") 0 "g" 10 =
      some [{ id := 10
              user_id := 1
              type := .EXPENSE
              amountCents := 5000
              date := "2024-01-01"
              description := "X"
              installment_group_id := none
              installment_number := none
              total_installments := none
              is_recurring := false
              recurring_group_id := none
              recurrence_frequency := none
              occurrence_number := none
              total_occurrences_in_group := none }] :=
  recurring_flag_ignored 1 .EXPENSE 5000 "2024-01-01" ⟨2024, 1, 1⟩ "X" 1 (some "semanal") 0 "g" 10
    (by decide) (by norm_num) (by norm_num)

/-- C5: `update_recurring_group_future_amounts` sets the amount to the new
value on exactly the rows of the named recurring group whose date is on or
after the cutoff, leaves every other field of those rows and every
non-matching row entirely unchanged, reports success together with the
number of matched rows, and on a group identifier that no row carries as
`recurring_group_id` (such as an installment group id) it matches zero rows
and returns 0 rather than failing. -/
theorem reprice_recurring_future (db : List Transaction) (gid fds : String) (na : Int)
    (i : Nat) (t : Transaction) (hi : db[i]? = some t) :
    (update_recurring_group_future_amounts db gid fds na).2.1 = true ∧
    (update_recurring_group_future_amounts db gid fds na).1.length = db.length ∧
    (recurringFutureHit gid fds t = true →
      (update_recurring_group_future_amounts db gid fds na).1[i]? =
        some { t with amountCents := na }) ∧
    (recurringFutureHit gid fds t = false →
      (update_recurring_group_future_amounts db gid fds na).1[i]? = some t) ∧
    (update_recurring_group_future_amounts db gid fds na).2.2 =
      db.countP (recurringFutureHit gid fds) ∧
    (db.countP (fun t' => t'.recurring_group_id == some gid) = 0 →
      update_recurring_group_future_amounts db gid fds na = (db, true, 0)) := by
  refine ⟨rfl, by simp [update_recurring_group_future_amounts], fun h => ?_, fun h => ?_, rfl,
    fun h0 => ?_⟩
  · simp [update_recurring_group_future_amounts, hi, h]
  · simp [update_recurring_group_future_amounts, hi, h]
  · have hall := List.countP_eq_zero.1 h0
    have hnone : ∀ t' ∈ db, recurringFutureHit gid fds t' = false := by
      intro t' ht'
      refine Bool.eq_false_iff.2 (fun hcontra => ?_)
      rw [recurringFutureHit, Bool.and_eq_true] at hcontra
      exact hall t' ht' hcontra.1
    have h1 : (db.map fun t' =>
        if recurringFutureHit gid fds t' then { t' with amountCents := na } else t') = db := by
      rw [List.map_congr_left
        (fun t' ht' => if_neg (by rw [hnone t' ht']; exact Bool.false_ne_true))]
      exact List.map_id db
    have h2 : db.countP (recurringFutureHit gid fds) = 0 :=
      List.countP_eq_zero.2 (fun t' ht' => by rw [hnone t' ht']; exact Bool.false_ne_true)
    rw [update_recurring_group_future_amounts, h1, h2]

/-- Witness for C5 on a 2-row recurring group (dates `2024-01-08` and
`2024-01-15`, cutoff `2024-01-15`): the second row is repriced, the first is
not, and exactly 1 row matches. -/
theorem reprice_recurring_future_witness :
    (update_recurring_group_future_amounts
      [{ id := 1, user_id := 1, type := .EXPENSE, amountCents := 5000, date := "2024-01-08",
         description := "X (Recorrente 1/2)", is_recurring := true, recurring_group_id := some "g",
         recurrence_frequency := some "weekly", occurrence_number := some 1,
         total_occurrences_in_group := some 2 },
       { id := 2, user_id := 1, type := .EXPENSE, amountCents := 5000, date := "2024-01-15",
         description := "X (Recorrente 2/2)", is_recurring := true, recurring_group_id := some "g",
         recurrence_frequency := some "weekly", occurrence_number := some 2,
         total_occurrences_in_group := some 2 }]
      "g" "2024-01-15" 6000).1[1]? =
      some { id := 2, user_id := 1, type := .EXPENSE, amountCents := 6000, date := "2024-01-15",
             description := "X (Recorrente 2/2)", is_recurring := true,
             recurring_group_id := some "g", recurrence_frequency := some "weekly",
             occurrence_number := some 2, total_occurrences_in_group := some 2 } := by
  have h := reprice_recurring_future
    [{ id := 1, user_id := 1, type := .EXPENSE, amountCents := 5000, date := "2024-01-08",
       description := "X (Recorrente 1/2)", is_recurring := true, recurring_group_id := some "g",
       recurrence_frequency := some "weekly", occurrence_number := some 1,
       total_occurrences_in_group := some 2 },
     { id := 2, user_id := 1, type := .EXPENSE, amountCents := 5000, date := "2024-01-15",
       description := "X (Recorrente 2/2)", is_recurring := true, recurring_group_id := some "g",
       recurrence_frequency := some "weekly", occurrence_number := some 2,
       total_occurrences_in_group := some 2 }]
    "g" "2024-01-15" 6000 1
    { id := 2, user_id := 1, type := .EXPENSE, amountCents := 5000, date := "2024-01-15",
      description := "X (Recorrente 2/2)", is_recurring := true, recurring_group_id := some "g",
      recurrence_frequency := some "weekly", occurrence_number := some 2,
      total_occurrences_in_group := some 2 } (by decide)
  exact h.2.2.1 (by decide)

theorem rename_entry (db : List Transaction) (gid gf nb : String) (i : Nat) (t : Transaction)
    (hgf : ¬(gf ≠ "installment_group_id" ∧ gf ≠ "recurring_group_id"))
    (hi : db[i]? = some t) :
    (update_group_base_description db gid gf nb).1[i]? =
      some (if groupMember gid gf t then
        { t with description :=
            match groupNum gf t, groupTotal gf t with
            | some num, some total => pyStrip nb ++ " (" ++ toString num ++ "/" ++ toString total ++ ")"
            | _, _ => pyStrip nb }
      else t) := by
  rw [update_group_base_description, if_neg hgf]
  simp [hi]

/-- C6 counterexample: the group rename strips surrounding whitespace from
the new base label before rebuilding member descriptions: renaming a
1-member installment group to `" Rent "` produces `"Rent (1/3)"`, not the
claimed `new_base_label ++ " (1/3)" = " Rent  (1/3)"`. -/
theorem rename_group_strip_cex :
    (update_group_base_description
      [{ id := 1, user_id := 1, type := .EXPENSE, amountCents := 100, date := "2024-01-01",
         description := "Old (1/3)", installment_group_id := some "g",
         installment_number := some 1, total_installments := some 3 }]
      "g" "installment_group_id" " Rent ").1 =
      [{ id := 1, user_id := 1, type := .EXPENSE, amountCents := 100, date := "2024-01-01",
         description := "Rent (1/3)", installment_group_id := some "g",
         installment_number := some 1, total_installments := some 3 }] ∧
    "Rent (1/3)" ≠ " Rent " ++ " (" ++ toString 1 ++ "/" ++ toString 3 ++ ")" := by
  constructor <;> decide

/-- C6 (amended): for either group kind, `update_group_base_description`
rewrites each member's description to the whitespace-trimmed new base label
followed by `" (position/count)"` built from that member's own stored
position and count columns, leaves non-member rows untouched, reports
success together with the number of member rows, and returns the table
unchanged with count 0 when no row matches the group identifier. -/
theorem rename_group (db : List Transaction) (gid gf nb : String)
    (i : Nat) (t : Transaction) (num tot : Nat)
    (hgf : gf = "installment_group_id" ∨ gf = "recurring_group_id")
    (hi : db[i]? = some t) :
    (update_group_base_description db gid gf nb).2.1 = true ∧
    (update_group_base_description db gid gf nb).1.length = db.length ∧
    (groupMember gid gf t = true → groupNum gf t = some num → groupTotal gf t = some tot →
      (update_group_base_description db gid gf nb).1[i]? =
        some { t with
          description := pyStrip nb ++ " (" ++ toString num ++ "/" ++ toString tot ++ ")" }) ∧
    (groupMember gid gf t = false →
      (update_group_base_description db gid gf nb).1[i]? = some t) ∧
    (update_group_base_description db gid gf nb).2.2 = db.countP (groupMember gid gf) ∧
    (db.countP (groupMember gid gf) = 0 →
      update_group_base_description db gid gf nb = (db, true, 0)) := by
  have hgf' : ¬(gf ≠ "installment_group_id" ∧ gf ≠ "recurring_group_id") := by
    rcases hgf with h | h <;> subst h <;> simp
  refine ⟨?_, ?_, fun hmem hnum htot => ?_, fun hmem => ?_, ?_, fun h0 => ?_⟩
  · rw [update_group_base_description, if_neg hgf']
  · rw [update_group_base_description, if_neg hgf']
    simp
  · rw [rename_entry db gid gf nb i t hgf' hi, if_pos hmem, hnum, htot]
  · rw [rename_entry db gid gf nb i t hgf' hi, if_neg (by rw [hmem]; exact Bool.false_ne_true)]
  · rw [update_group_base_description, if_neg hgf']
  · have hall := List.countP_eq_zero.1 h0
    have h1 : (db.map fun t' =>
        if groupMember gid gf t' then
          { t' with description :=
              match groupNum gf t', groupTotal gf t' with
              | some num, some total =>
                pyStrip nb ++ " (" ++ toString num ++ "/" ++ toString total ++ ")"
              | _, _ => pyStrip nb }
        else t') = db := by
      rw [List.map_congr_left (fun t' ht' => if_neg (hall t' ht'))]
      exact List.map_id db
    rw [update_group_base_description, if_neg hgf', h1, h0]

/-- Witness for C6 (amended): renaming a 1-member installment group to
`" Rent "` rewrites the member to `"Rent (1/3)"` using its stored position
1 of 3, and the count of touched rows is reported. -/
theorem rename_group_witness :
    (update_group_base_description
      [{ id := 1, user_id := 1, type := .EXPENSE, amountCents := 100, date := "2024-01-01",
         description := "Old (1/3)", installment_group_id := some "g",
         installment_number := some 1, total_installments := some 3 }]
      "g" "installment_group_id" " Rent ").1[0]? =
      some { id := 1, user_id := 1, type := .EXPENSE, amountCents := 100, date := "2024-01-01",
             description := pyStrip " Rent " ++ " (" ++ toString 1 ++ "/" ++ toString 3 ++ ")",
             installment_group_id := some "g",
             installment_number := some 1, total_installments := some 3 } ∧
    (update_group_base_description
      [{ id := 1, user_id := 1, type := .EXPENSE, amountCents := 100, date := "2024-01-01",
         description := "Old (1/3)", installment_group_id := some "g",
         installment_number := some 1, total_installments := some 3 }]
      "g" "installment_group_id" " Rent ").2.2 = 1 := by
  have h := rename_group
    [{ id := 1, user_id := 1, type := .EXPENSE, amountCents := 100, date := "2024-01-01",
       description := "Old (1/3)", installment_group_id := some "g",
       installment_number := some 1, total_installments := some 3 }]
    "g" "installment_group_id" " Rent " 0
    { id := 1, user_id := 1, type := .EXPENSE, amountCents := 100, date := "2024-01-01",
      description := "Old (1/3)", installment_group_id := some "g",
      installment_number := some 1, total_installments := some 3 } 1 3
    (Or.inl rfl) (by decide)
  exact ⟨h.2.2.1 (by decide) (by decide) (by decide), by rw [h.2.2.2.2.1]; decide⟩

/-- C9: the group-wide rename rewrites every member of a recurring group to
the plain form `base ++ " (n/count)"`, dropping the `"Recorrente "` marker
that `add_transaction` placed in every recurring member's label at creation
— renaming even with the original base label cannot reproduce the
creation-time format — whereas renaming an installment group with its
original base label reproduces the creation-time records exactly. -/
theorem recurring_rename_drops_marker (u : Nat) (ty : TransactionType) (a : Int)
    (ds : String) (start : Date) (desc : String) (k : Int) (fIn dbF : String)
    (nOcc : Int) (g : String) (r : Nat) (i : Nat) (l : List Transaction) (nb : String)
    (k' : Int) (g' : String) (r' : Nat) (i' : Nat) (l' : List Transaction)
    (hparse : parseDate ds = some start)
    (hfreq : FREQUENCY_MAPPING fIn = some dbF)
    (hn : 0 < nOcc) (hi : i < nOcc.toNat)
    (hl : add_transaction u ty a ds desc k true (some fIn) nOcc g r = some l)
    (hk' : 1 < k') (hi' : i' < k'.toNat)
    (hl' : add_transaction u ty a ds desc k' false (some fIn) nOcc g' r' = some l') :
    (l[i]?).map Transaction.description =
      some (desc ++ " (Recorrente " ++ toString (i + 1) ++ "/" ++ toString nOcc.toNat ++ ")") ∧
    ((update_group_base_description l g "recurring_group_id" nb).1[i]?).map
        Transaction.description =
      some (pyStrip nb ++ " (" ++ toString (i + 1) ++ "/" ++ toString nOcc.toNat ++ ")") ∧
    (pyStrip desc = desc →
      pyStrip desc ++ " (" ++ toString (i + 1) ++ "/" ++ toString nOcc.toNat ++ ")" ≠
        desc ++ " (Recorrente " ++ toString (i + 1) ++ "/" ++ toString nOcc.toNat ++ ")") ∧
    (pyStrip desc = desc →
      (update_group_base_description l' g' "installment_group_id" desc).1[i']? = l'[i']?) := by
  rw [recurring_shape u ty a ds start desc k fIn dbF nOcc g r hparse hfreq hn] at hl
  injection hl with hl
  subst hl
  rw [installment_shape u ty a ds start desc k' (some fIn) nOcc g' r' hparse hk'] at hl'
  injection hl' with hl'
  subst hl'
  have hgfr : ¬(("recurring_group_id" : String) ≠ "installment_group_id" ∧
      ("recurring_group_id" : String) ≠ "recurring_group_id") := by simp
  have hgfi : ¬(("installment_group_id" : String) ≠ "installment_group_id" ∧
      ("installment_group_id" : String) ≠ "recurring_group_id") := by simp
  refine ⟨?_, ?_, fun htrim heq => ?_, fun htrim => ?_⟩
  · simp [List.getElem?_range hi]
  · have hL : ((List.range nOcc.toNat).map (fun (j : Nat) =>
        ({ id := r + j
           user_id := u
           type := ty
           amountCents := a
           date := formatDate (recognizedOccurrenceDate start dbF j)
           description := desc ++ " (Recorrente " ++ toString (j + 1) ++ "/" ++ toString nOcc.toNat ++ ")"
           is_recurring := true
           recurring_group_id := some g
           recurrence_frequency := some dbF
           occurrence_number := some (j + 1)
           total_occurrences_in_group := some nOcc.toNat } : Transaction)))[i]? =
        some ({ id := r + i
                user_id := u
                type := ty
                amountCents := a
                date := formatDate (recognizedOccurrenceDate start dbF i)
                description := desc ++ " (Recorrente " ++ toString (i + 1) ++ "/" ++ toString nOcc.toNat ++ ")"
                is_recurring := true
                recurring_group_id := some g
                recurrence_frequency := some dbF
                occurrence_number := some (i + 1)
                total_occurrences_in_group := some nOcc.toNat } : Transaction) := by
      simp [List.getElem?_range hi]
    rw [rename_entry _ g "recurring_group_id" nb i _ hgfr hL]
    simp [groupMember, groupNum, groupTotal]
  · have hlen := congrArg String.length heq
    rw [htrim] at hlen
    simp only [String.length_append] at hlen
    have e1 : (" (" : String).length = 2 := rfl
    have e2 : (" (Recorrente " : String).length = 13 := rfl
    have e3 : ("/" : String).length = 1 := rfl
    have e4 : (")" : String).length = 1 := rfl
    rw [e1, e2, e3, e4] at hlen
    omega
  · have hL' : ((List.range k'.toNat).map (fun (j : Nat) =>
        ({ id := r' + j
           user_id := u
           type := ty
           amountCents := if (j : Int) < a.fmod k' then a.fdiv k' + 1 else a.fdiv k'
           date := formatDate (addMonths start j)
           description := desc ++ " (" ++ toString (j + 1) ++ "/" ++ toString k'.toNat ++ ")"
           installment_group_id := some g'
           installment_number := some (j + 1)
           total_installments := some k'.toNat } : Transaction)))[i']? =
        some ({ id := r' + i'
                user_id := u
                type := ty
                amountCents := if (i' : Int) < a.fmod k' then a.fdiv k' + 1 else a.fdiv k'
                date := formatDate (addMonths start i')
                description := desc ++ " (" ++ toString (i' + 1) ++ "/" ++ toString k'.toNat ++ ")"
                installment_group_id := some g'
                installment_number := some (i' + 1)
                total_installments := some k'.toNat } : Transaction) := by
      simp [List.getElem?_range hi']
    rw [rename_entry _ g' "installment_group_id" desc i' _ hgfi hL', hL']
    simp [groupMember, groupNum, groupTotal, htrim]

/-- Witness for C9: a 1-occurrence recurring group created with base
`"Rent"` carries the label `"Rent (Recorrente 1/1)"`; renaming it to
`"Casa"` yields `"Casa (1/1)"` (no `Recorrente` marker), renaming with
`"Rent"` itself cannot restore the creation label, while renaming a
2-installment group back to `"Rent"` reproduces its records exactly. -/
theorem recurring_rename_drops_marker_witness :
    (([{ id := 5, user_id := 1, type := .EXPENSE, amountCents := 5000, date := "2024-01-31",
         description := "Rent (Recorrente 1/1)", is_recurring := true,
         recurring_group_id := some "RG", recurrence_frequency := some "monthly",
         occurrence_number := some 1, total_occurrences_in_group := some 1 }] :
        List Transaction)[0]?).map Transaction.description =
      some ("Rent" ++ " (Recorrente " ++ toString (0 + 1) ++ "/" ++ toString (1 : Int).toNat ++ ")") ∧
    ((update_group_base_description
        [{ id := 5, user_id := 1, type := .EXPENSE, amountCents := 5000, date := "2024-01-31",
           description := "Rent (Recorrente 1/1)", is_recurring := true,
           recurring_group_id := some "RG", recurrence_frequency := some "monthly",
           occurrence_number := some 1, total_occurrences_in_group := some 1 }]
        "RG" "recurring_group_id" "Casa").1[0]?).map Transaction.description =
      some (pyStrip "Casa" ++ " (" ++ toString (0 + 1) ++ "/" ++ toString (1 : Int).toNat ++ ")") ∧
    (pyStrip "Rent" = "Rent" →
      pyStrip "Rent" ++ " (" ++ toString (0 + 1) ++ "/" ++ toString (1 : Int).toNat ++ ")" ≠
        "Rent" ++ " (Recorrente " ++ toString (0 + 1) ++ "/" ++ toString (1 : Int).toNat ++ ")") ∧
    (pyStrip "Rent" = "Rent" →
      (update_group_base_description
        [{ id := 8, user_id := 1, type := .EXPENSE, amountCents := 2500, date := "2024-01-31",
           description := "Rent (1/2)", installment_group_id := some "IG",
           installment_number := some 1, total_installments := some 2 },
         { id := 9, user_id := 1, type := .EXPENSE, amountCents := 2500, date := "2024-02-29",
           description := "Rent (2/2)", installment_group_id := some "IG",
           installment_number := some 2, total_installments := some 2 }]
        "IG" "installment_group_id" "Rent").1[1]? =
      ([{ id := 8, user_id := 1, type := .EXPENSE, amountCents := 2500, date := "2024-01-31",
          description := "Rent (1/2)", installment_group_id := some "IG",
          installment_number := some 1, total_installments := some 2 },
        { id := 9, user_id := 1, type := .EXPENSE, amountCents := 2500, date := "2024-02-29",
          description := "Rent (2/2)", installment_group_id := some "IG",
          installment_number := some 2, total_installments := some 2 }] :
        List Transaction)[1]?) :=
  recurring_rename_drops_marker 1 .EXPENSE 5000 "2024-01-31" ⟨2024, 1, 31⟩ "Rent" 1 "mensal"
    "monthly" 1 "RG" 5 0
    [{ id := 5, user_id := 1, type := .EXPENSE, amountCents := 5000, date := "2024-01-31",
       description := "Rent (Recorrente 1/1)", is_recurring := true,
       recurring_group_id := some "RG", recurrence_frequency := some "monthly",
       occurrence_number := some 1, total_occurrences_in_group := some 1 }]
    "Casa" 2 "IG" 8 1
    [{ id := 8, user_id := 1, type := .EXPENSE, amountCents := 2500, date := "2024-01-31",
       description := "Rent (1/2)", installment_group_id := some "IG",
       installment_number := some 1, total_installments := some 2 },
     { id := 9, user_id := 1, type := .EXPENSE, amountCents := 2500, date := "2024-02-29",
       description := "Rent (2/2)", installment_group_id := some "IG",
       installment_number := some 2, total_installments := some 2 }]
    (by decide) (by decide) (by norm_num) (by decide) (by decide) (by norm_num) (by decide)
    (by decide)

end Muquirano
